import Mathlib

/-!
Verification of the ASDAS atmospheric-stability program (src/ASDAS.py)
against its natural-language specification.

The Python source is shallowly embedded below.  Python floats that can be
NaN are modelled as `Option ℚ` (`none` = NaN), with the Python semantics
that every ordered comparison against NaN is false.  Python exceptions are
modelled with `Except PyError`.  The metpy library functions called by the
source are not part of this repository; they enter the embedding as
parameters (`MetPy`), and where a claim is about their numerical content
the corresponding definition is modelled from the spec and marked as such.
-/

set_option linter.unusedVariables false

namespace ASDAS

/-- Station codes are strings such as "WITT". -/
abbrev Station := String

/-- A float cell of the stability dataframe: a real value (modelled as `ℚ`)
or NaN (`none`).  Ordered comparisons involving NaN are false in Python. -/
abbrev Val := Option ℚ

/-- Python `>` on possibly-NaN floats: false whenever either side is NaN. -/
def vGt (a b : Val) : Bool :=
  match a, b with
  | some x, some y => decide (y < x)
  | _, _ => false

/-- Python `<` on possibly-NaN floats: false whenever either side is NaN. -/
def vLt (a b : Val) : Bool :=
  match a, b with
  | some x, some y => decide (x < y)
  | _, _ => false

/-- Embedding of `index_criteria` (src/ASDAS.py lines 19-28): the ordered
if/elif chain assigning the category string. -/
def index_criteria (cape_value k_index_value lifted_index_value showalter_index_value : Val) :
    String :=
  if vGt cape_value (some 2500) && vGt k_index_value (some 30) &&
      vLt lifted_index_value (some (-5)) then
    "Labil Kuat"
  else if vGt cape_value (some 1000) && vGt k_index_value (some 20) &&
      vLt lifted_index_value (some (-3)) then
    "Labil Sedang"
  else if vGt cape_value (some 100) && vGt k_index_value (some 0) &&
      vLt showalter_index_value (some 0) then
    "Labil Lemah"
  else
    "Stabil"

/-- The four stability categories, named as in the spec (§3, §4.4). -/
inductive Category where
  | Stable
  | WeaklyUnstable
  | ModeratelyUnstable
  | StronglyUnstable
deriving DecidableEq, Repr

/-- The classifier exactly as the spec words it (§4.4): an ordered
if/else-if chain with strict comparisons, first matching tier wins. -/
def specClassifier (cape kIndex liftedIndex showalterIndex : ℚ) : Category :=
  if cape > 2500 ∧ kIndex > 30 ∧ liftedIndex < -5 then .StronglyUnstable
  else if cape > 1000 ∧ kIndex > 20 ∧ liftedIndex < -3 then .ModeratelyUnstable
  else if cape > 100 ∧ kIndex > 0 ∧ showalterIndex < 0 then .WeaklyUnstable
  else .Stable

/-- The category label printed by the source for each spec category
(the source labels categories in Indonesian). -/
def Category.label : Category → String
  | .Stable => "Stabil"
  | .WeaklyUnstable => "Labil Lemah"
  | .ModeratelyUnstable => "Labil Sedang"
  | .StronglyUnstable => "Labil Kuat"

/-- C1: on every real-valued input tuple the source classifier
`index_criteria` agrees with the spec's ordered if/else-if chain with
strict comparisons, and the boundary input cape = 2500, kIndex = 30,
liftedIndex = -5 does not satisfy tier 1: it lands in tier 2
("Labil Sedang" = ModeratelyUnstable), for every showalter value. -/
theorem C1_classifier_chain :
    (∀ c k l s : ℚ, index_criteria (some c) (some k) (some l) (some s) =
      (specClassifier c k l s).label)
    ∧ (∀ s : Val, index_criteria (some 2500) (some 30) (some (-5)) s = "Labil Sedang") := by
  constructor
  · intro c k l s
    simp only [index_criteria, specClassifier, vGt, vLt, Bool.and_eq_true, decide_eq_true_eq]
    split_ifs with h1 h2 h3 h4 h5 h6 h7 h8 h9 <;>
      simp_all [Category.label]
  · intro s
    simp [index_criteria, vGt, vLt]
    norm_num

/-- A calendar timestamp as `datetime` is used by `main` (year, month, day,
hour, minute); seconds and microseconds are always zeroed where the source
touches them, so they are not carried. -/
structure DateTime where
  year : ℕ
  month : ℕ
  day : ℕ
  hour : ℕ
  minute : ℕ
deriving DecidableEq, Repr

/-- The `datetime(y, m, d, h)` constructor call used in `main`. -/
def datetime (y m d h : ℕ) : DateTime := ⟨y, m, d, h, 0⟩

/-- `t + timedelta(hours=h)`.  The only use in the source is midnight + 12
hours, which never carries past a day boundary, so carry into the month is
not modelled. -/
def addHours (t : DateTime) (h : ℕ) : DateTime :=
  { t with day := t.day + (t.hour + h) / 24, hour := (t.hour + h) % 24 }

/-- The per-station sounding columns the source reads: parallel arrays of
pressure, temperature and dewpoint (wind and height are never read). -/
structure Sounding where
  pressure : List ℚ
  temperature : List ℚ
  dewpoint : List ℚ
deriving DecidableEq, Repr

/-- One station's dataframe as returned by the Wyoming archive: the
sounding plus the station-level time/latitude/longitude columns the source
reads from it (latitude/longitude may be NaN). -/
structure StationData where
  sounding : Sounding
  time : ℚ
  latitude : Val
  longitude : Val
deriving DecidableEq, Repr

/-- The Python exceptions reachable in the embedded fragment. -/
inductive PyError where
  | nameError (name : String)
  | indexError
  | valueError
  | metpyError
deriving DecidableEq, Repr

/-- The outcome of one `WyomingUpperAir.request_data` call: data, an
`requests.exceptions.HTTPError`, or a `ValueError`. -/
inductive FetchResult (α : Type) where
  | ok (data : α)
  | httpError
  | valueError
deriving DecidableEq, Repr

/-- The messages `st.write` produces inside the retrieval loop. -/
inductive RetrieveMsg where
  | retrying
  | noData (date : DateTime) (station : Station)
deriving DecidableEq, Repr

/-- What the retrieval loop produces: the sequence of fetch calls it
issued, the messages it wrote, and the per-station data mapping. -/
structure RetrieveOut (α : Type) where
  calls : List Station
  msgs : List RetrieveMsg
  data : List (Station × α)
deriving DecidableEq, Repr

/-- Embedding of `retrieve_data_from_wyoming` (src/ASDAS.py lines 33-43):
one `request_data` per station; an HTTPError prints the busy/"Retrying"
message and moves on, a ValueError prints the no-data message and moves
on; only successful stations enter the returned dict. -/
def retrieve_data_from_wyoming {α : Type} (date : DateTime)
    (fetch : DateTime → Station → FetchResult α) :
    List Station → RetrieveOut α
  | [] => ⟨[], [], []⟩
  | st :: rest =>
    let r := retrieve_data_from_wyoming date fetch rest
    match fetch date st with
    | .ok d => ⟨st :: r.calls, r.msgs, (st, d) :: r.data⟩
    | .httpError => ⟨st :: r.calls, .retrying :: r.msgs, r.data⟩
    | .valueError => ⟨st :: r.calls, .noData date st :: r.msgs, r.data⟩

/-- The metpy calculus functions invoked by `calculate_stability`.  They
are external library code, not part of this repository, so the embedding
takes them as parameters; each call may raise. -/
structure MetPy where
  parcel_profile : List ℚ → ℚ → ℚ → Except PyError (List ℚ)
  cape_cin : List ℚ → List ℚ → List ℚ → List ℚ → Except PyError (Val × Val)
  k_index : List ℚ → List ℚ → List ℚ → Except PyError Val
  lifted_index : List ℚ → List ℚ → List ℚ → Except PyError Val
  showalter_index : List ℚ → List ℚ → List ℚ → Except PyError Val

/-- Python's banker's rounding (`round`, `np.round`) to an integer. -/
def roundHalfEven (q : ℚ) : ℤ :=
  let f := ⌊q⌋
  let r := q - f
  if r < 1/2 then f
  else if 1/2 < r then f + 1
  else if f % 2 = 0 then f else f + 1

/-- `round(x, 0)` on a possibly-NaN float (`round` of NaN is NaN). -/
def vRound0 : Val → Val := Option.map (fun q => (roundHalfEven q : ℚ))

/-- `np.round(x, 1)` on a possibly-NaN float. -/
def vRound1 : Val → Val := Option.map (fun q => (roundHalfEven (10 * q) : ℚ) / 10)

/-- Python `xs[0]`: raises IndexError on an empty sequence. -/
def pyIndex0 {β : Type} (xs : List β) : Except PyError β :=
  match xs with
  | [] => .error .indexError
  | x :: _ => .ok x

/-- One row of the `dfindex` dataframe (its columns, line 47); every cell
can be NaN. -/
structure Row where
  waktu : Val
  lintang : Val
  bujur : Val
  cape : Val
  kIndex : Val
  liftedIndex : Val
  showalterIndex : Val
deriving DecidableEq, Repr

/-- The all-NaN row a station keeps in `dfindex` until (unless) the loop
fills it. -/
def nanRow : Row := ⟨none, none, none, none, none, none, none⟩

/-- Index of the `dfindex` frame: a (station code, station name) pair,
as produced by `station_to_location.items()`. -/
abbrev DfKey := Station × String

abbrev DfRow := DfKey × Option Row

/-- One entry of the final result table: index pair, values, and the
`Kategori` string. -/
abbrev OutRow := DfKey × Row × String

/-- Embedding of the body of the per-station loop in `calculate_stability`
(src/ASDAS.py lines 49-64): read the surface temperature and dewpoint
(`[0]` indexing raises IndexError on an empty profile), lift the parcel,
then compute CAPE (CIN is discarded), K-Index, Lifted Index and Showalter
Index, rounding as the source does.  No exception is caught here: any
error propagates. -/
def computeRow (mp : MetPy) (sd : StationData) : Except PyError Row :=
  match pyIndex0 sd.sounding.temperature with
  | .error e => .error e
  | .ok t0 =>
    match pyIndex0 sd.sounding.dewpoint with
    | .error e => .error e
    | .ok d0 =>
      match mp.parcel_profile sd.sounding.pressure t0 d0 with
      | .error e => .error e
      | .ok profile =>
        match mp.cape_cin sd.sounding.pressure sd.sounding.temperature sd.sounding.dewpoint
            profile with
        | .error e => .error e
        | .ok cc =>
          match mp.k_index sd.sounding.pressure sd.sounding.temperature
              sd.sounding.dewpoint with
          | .error e => .error e
          | .ok kv =>
            match mp.lifted_index sd.sounding.pressure sd.sounding.temperature profile with
            | .error e => .error e
            | .ok lv =>
              match mp.showalter_index sd.sounding.pressure sd.sounding.temperature
                  sd.sounding.dewpoint with
              | .error e => .error e
              | .ok sv =>
                .ok { waktu := some sd.time, lintang := sd.latitude, bujur := sd.longitude,
                      cape := vRound0 cc.1, kIndex := vRound0 kv,
                      liftedIndex := vRound1 lv, showalterIndex := vRound1 sv }

/-- The `for key, value in data_per_station.items()` loop of
`calculate_stability`: compute a row per station and assign it at that
station's index (`dfindex.loc[key] = ...` fills the rows whose code
matches `key`; in the program the keys always come from the fixed station
list that indexes the frame).  There is no try/except in this loop, so the
first raising station aborts it. -/
def fill_rows (mp : MetPy) :
    List (Station × StationData) → List DfRow → Except PyError (List DfRow)
  | [], acc => .ok acc
  | (key, sd) :: rest, acc =>
    match computeRow mp sd with
    | .error e => .error e
    | .ok row =>
      fill_rows mp rest (acc.map (fun e => if e.1.1 = key then (e.1, some row) else e))

/-- Embedding of `calculate_stability` (src/ASDAS.py lines 45-74):
`pd.concat` of no dataframes raises ValueError; `dfindex` starts with one
all-NaN row per entry of `station_to_location`; the loop fills rows (and
aborts on the first error); the unit-stripping `get_magnitude` pass is a
value-level no-op; `Kategori` is computed for every row (NaN rows compare
false everywhere and get "Stabil"); finally rows with NaN
latitude/longitude are dropped. -/
def calculate_stability (mp : MetPy) (data_per_station : List (Station × StationData))
    (station_to_location : List (Station × String)) : Except PyError (List OutRow) :=
  if data_per_station.isEmpty then .error .valueError
  else
    match fill_rows mp data_per_station (station_to_location.map (fun p => (p, none))) with
    | .error e => .error e
    | .ok rows =>
      let withKategori : List OutRow := rows.map (fun e =>
        let r := e.2.getD nanRow
        (e.1, r, index_criteria r.cape r.kIndex r.liftedIndex r.showalterIndex))
      .ok (withKategori.filter (fun e => e.2.1.lintang.isSome && e.2.1.bujur.isSome))

/-- Embedding of the marker colour chain in `mapplot` (src/ASDAS.py lines
93-100): a category other than the four known strings leaves the local
`color` unbound, a NameError. -/
def category_color : String → Except PyError String
  | "Stabil" => .ok "green"
  | "Labil Lemah" => .ok "yellow"
  | "Labil Sedang" => .ok "orange"
  | "Labil Kuat" => .ok "red"
  | _ => .error (.nameError "color")

/-- Embedding of `mapplot` (src/ASDAS.py lines 87-120): drop rows without
geolocation, then build one coloured circle marker per remaining row
(base-map construction, popups and the legend carry no data the claims
touch and are elided). -/
def mapplot (df : List OutRow) : Except PyError (List (Val × Val × String)) :=
  (df.filter (fun e => e.2.1.lintang.isSome && e.2.1.bujur.isSome)).mapM (fun e =>
    match category_color e.2.2 with
    | .error er => .error er
    | .ok c => .ok (e.2.1.lintang, e.2.1.bujur, c))

/-- The hard-coded station list of `main` (src/ASDAS.py lines 136-137). -/
def stations : List Station :=
  ["WITT", "WIMM", "WIMG", "WIBB", "WION", "WIKK", "WIPL", "WIII", "WIIL", "WRSJ",
   "WRRR", "WRLR", "WRBB", "WRLL", "WIOO", "WRBI", "WAAA", "WAML", "WAMM", "WRKC",
   "WRKK", "WAMT", "WAPP", "WAPI", "WABB", "WASS", "WAJJ", "WAJW", "WAKK"]

/-- The static `station_to_location` table of `main` (lines 138-168). -/
def station_to_location : List (Station × String) :=
  [("WITT", "Aceh"), ("WIMM", "Medan"), ("WIMG", "Padang"), ("WIBB", "Pekanbaru"),
   ("WION", "Ranai"), ("WIKK", "Pangkal Pinang"), ("WIPL", "Bengkulu"),
   ("WIII", "Jakarta"), ("WIIL", "Cilacap"), ("WRSJ", "Surabaya"),
   ("WRRR", "Denpasar"), ("WRLR", "Tarakan"), ("WRBB", "Banjarmasin"),
   ("WRLL", "Balikpapan"), ("WIOO", "Pontianak"), ("WRBI", "Pangkalan Bun"),
   ("WAAA", "Makassar"), ("WAML", "Palu"), ("WAMM", "Manado"), ("WRKC", "Maumere"),
   ("WRKK", "Kupang"), ("WAMT", "Ternate"), ("WAPP", "Ambon"), ("WAPI", "Saumlaki"),
   ("WABB", "Biak"), ("WASS", "Sorong"), ("WAJJ", "Jayapura"), ("WAJW", "Wamena"),
   ("WAKK", "Merauke")]

/-- The checkbox-driven part of `main` (src/ASDAS.py lines 170-184), with
the retrieval date as an explicit argument.  `df` is bound only inside the
first checkbox's branch.  The map branch evaluates `mapplot(df)` — a
NameError if `df` was never bound — and then looks up `folium_static`,
a name the source never imports or defines, so that lookup itself is a
NameError. -/
def main_body (onFlag dmap : Bool) (date : DateTime)
    (fetch : DateTime → Station → FetchResult StationData) (mp : MetPy) :
    Except PyError (Option (List OutRow)) :=
  let dfStep : Except PyError (Option (List OutRow)) :=
    if onFlag then
      match calculate_stability mp (retrieve_data_from_wyoming date fetch stations).data
          station_to_location with
      | .error e => .error e
      | .ok table => .ok (some table)
    else .ok none
  match dfStep with
  | .error e => .error e
  | .ok df =>
    if dmap then
      match df with
      | none => .error (.nameError "df")
      | some table =>
        match mapplot table with
        | .error e => .error e
        | .ok _ => .error (.nameError "folium_static")
    else .ok df

/-- Embedding of `main` (src/ASDAS.py lines 123-184): the current UTC
time is truncated to the last synoptic hour and a next synoptic time is
derived from it, but the `date` actually handed to the retrieval step is
the constant `datetime(2023, 10, 16, 00)` of line 133. -/
def main_run (onFlag dmap : Bool) (current : DateTime)
    (fetch : DateTime → Station → FetchResult StationData) (mp : MetPy) :
    Except PyError (Option (List OutRow)) :=
  let current_datetime_utc := current
  let last_data_time_utc : DateTime := { current_datetime_utc with hour := 0, minute := 0 }
  let next_data_time_utc : DateTime :=
    if 12 ≤ current_datetime_utc.hour then addHours last_data_time_utc 12
    else last_data_time_utc
  let date : DateTime := datetime 2023 10 16 0
  main_body onFlag dmap date fetch mp

/-- Modelled from the spec: the BuoyancyIntegrator (§4.2) behind the call
to `mpcalc.cape_cin`, which is external library code.  Buoyancy at a level
is `(Tparcel − Tenv) / Tenv` in absolute temperature; the trapezoidal-rule
integral of its positive part over height, times g, between the LFC (first
level of non-negative buoyancy) and the EL (last such level), is CAPE; the
integral of its negative part from the surface up to the LFC is CIN.  With
no LFC, CAPE is 0 and CIN is the full negative integral. -/
def buoyancy (tp te : ℚ) : ℚ := (tp - te) / te

/-- Trapezoidal-rule integral over height of the positive part of a
sampled function, given as (height, value) pairs. -/
def trapzPos : List (ℚ × ℚ) → ℚ
  | (h1, v1) :: (h2, v2) :: rest =>
    (max v1 0 + max v2 0) / 2 * (h2 - h1) + trapzPos ((h2, v2) :: rest)
  | _ => 0

/-- Trapezoidal-rule integral over height of the negative part of a
sampled function, given as (height, value) pairs. -/
def trapzNeg : List (ℚ × ℚ) → ℚ
  | (h1, v1) :: (h2, v2) :: rest =>
    (min v1 0 + min v2 0) / 2 * (h2 - h1) + trapzNeg ((h2, v2) :: rest)
  | _ => 0

/-- Gravitational acceleration, 9.81 m/s². -/
def gAccel : ℚ := 981 / 100

/-- Modelled from the spec: CAPE and CIN of a profile given as
(height, Tparcel, Tenv) triples with temperatures in Kelvin (§4.2). -/
def cape_cin_spec (levels : List (ℚ × ℚ × ℚ)) : ℚ × ℚ :=
  let pairs := levels.map (fun l => (l.1, buoyancy l.2.1 l.2.2))
  let lfc := pairs.findIdx (fun p => decide (0 ≤ p.2))
  let el := pairs.length - pairs.reverse.findIdx (fun p => decide (0 ≤ p.2))
  (gAccel * trapzPos ((pairs.drop lfc).take (el - lfc)),
   gAccel * trapzNeg (pairs.take (lfc + 1)))

/-- Modelled from the spec: interpolation of the environmental profile at
a standard pressure level (§4.3) — exact match if the level is present,
otherwise linear interpolation between the two bracketing levels (pressure
listed surface-first, descending), and `none` (missing) when the profile's
pressure range does not span the level.  The pressure/value pairs come
from external metpy code. -/
def interpAt (p : ℚ) : List (ℚ × ℚ) → Option ℚ
  | [] => none
  | [(p1, v1)] => if p1 = p then some v1 else none
  | (p1, v1) :: (p2, v2) :: rest =>
    if p1 = p then some v1
    else if p2 < p ∧ p < p1 then some (v2 + (v1 - v2) * ((p - p2) / (p1 - p2)))
    else interpAt p ((p2, v2) :: rest)

/-- Modelled from the spec: the K-Index (§4.3) behind `mpcalc.k_index`,
external library code: `(T850 − T500) + Td850 − (T700 − Td700)` on the
(pressure, T, Td) levels, missing when a needed level is not spanned. -/
def k_index_spec (levels : List (ℚ × ℚ × ℚ)) : Option ℚ :=
  match interpAt 850 (levels.map (fun l => (l.1, l.2.1))),
      interpAt 700 (levels.map (fun l => (l.1, l.2.1))),
      interpAt 500 (levels.map (fun l => (l.1, l.2.1))),
      interpAt 850 (levels.map (fun l => (l.1, l.2.2))),
      interpAt 700 (levels.map (fun l => (l.1, l.2.2))) with
  | some t850, some t700, some t500, some td850, some td700 =>
    some ((t850 - t500) + td850 - (t700 - td700))
  | _, _, _, _, _ => none

/-- Modelled from the spec: the Lifted Index (§4.3) behind
`mpcalc.lifted_index`, external library code: `Tenv@500 − Tparcel@500`
with the parcel lifted from the surface, rounded to one decimal, and
missing (NaN) when 500 hPa is not spanned. -/
def lifted_index_spec (levels : List (ℚ × ℚ × ℚ)) (parcel : List ℚ) : Option ℚ :=
  match interpAt 500 (levels.map (fun l => (l.1, l.2.1))),
      interpAt 500 ((levels.map (fun l => l.1)).zip parcel) with
  | some te500, some tp500 => vRound1 (some (te500 - tp500))
  | _, _ => none

/-- Modelled from the spec: the Showalter Index (§4.3) behind
`mpcalc.showalter_index`, external library code: `Tenv@500 −
Tparcel_from_850@500` with the parcel lifted from 850 hPa, rounded to one
decimal, and missing (NaN) when 500 hPa is not spanned. -/
def showalter_index_spec (levels : List (ℚ × ℚ × ℚ)) (parcel850 : List ℚ) : Option ℚ :=
  match interpAt 500 (levels.map (fun l => (l.1, l.2.1))),
      interpAt 500 ((levels.map (fun l => l.1)).zip parcel850) with
  | some te500, some tp500 => vRound1 (some (te500 - tp500))
  | _, _ => none

/-- A total metpy stub used for concrete runs in witnesses and
counterexamples below: every call succeeds with fixed values (CAPE 3000,
K-Index 35, Lifted Index -6, Showalter Index -2). -/
def mpOk : MetPy where
  parcel_profile := fun ps _ _ => .ok ps
  cape_cin := fun _ _ _ _ => .ok (some 3000, some (-10))
  k_index := fun _ _ _ => .ok (some 35)
  lifted_index := fun _ _ _ => .ok (some (-6))
  showalter_index := fun _ _ _ => .ok (some (-2))

/-- Full behaviour of the retrieval loop: the fetch-call log is exactly
the station list (one call each, in order), the data mapping keeps exactly
the successful stations with their data, and the messages are one per
failed fetch. -/
theorem retrieve_spec {α : Type} (date : DateTime)
    (fetch : DateTime → Station → FetchResult α) (sts : List Station) :
    (retrieve_data_from_wyoming date fetch sts).calls = sts
    ∧ (retrieve_data_from_wyoming date fetch sts).data = sts.filterMap (fun st =>
        match fetch date st with
        | .ok d => some (st, d)
        | _ => none)
    ∧ (retrieve_data_from_wyoming date fetch sts).msgs = sts.filterMap (fun st =>
        match fetch date st with
        | .ok _ => none
        | .httpError => some .retrying
        | .valueError => some (.noData date st)) := by
  induction sts with
  | nil => exact ⟨rfl, rfl, rfl⟩
  | cons st rest ih =>
    obtain ⟨ih1, ih2, ih3⟩ := ih
    cases h : fetch date st <;>
      simp [retrieve_data_from_wyoming, h, ih1, ih2, ih3, List.filterMap_cons]

/-- C10: `retrieve_data_from_wyoming` issues exactly one fetch per station
(the call log equals the station list even when HTTPErrors produce the
"Retrying" message); a station whose fetch raises HTTPError or ValueError
is absent from the returned mapping while the remaining stations are still
fetched and collected. -/
theorem C10_single_fetch :
    ∀ (α : Type) (date : DateTime) (fetch : DateTime → Station → FetchResult α)
      (sts : List Station),
      (retrieve_data_from_wyoming date fetch sts).calls = sts
      ∧ (retrieve_data_from_wyoming date fetch sts).data = sts.filterMap (fun st =>
          match fetch date st with
          | .ok d => some (st, d)
          | _ => none)
      ∧ (retrieve_data_from_wyoming date fetch sts).msgs = sts.filterMap (fun st =>
          match fetch date st with
          | .ok _ => none
          | .httpError => some .retrying
          | .valueError => some (.noData date st)) :=
  fun _ date fetch sts => retrieve_spec date fetch sts

/-- The retrieval loop consults `fetch` only at the date it was given. -/
theorem retrieve_congr {α : Type} (date : DateTime)
    (f₁ f₂ : DateTime → Station → FetchResult α)
    (h : ∀ st, f₁ date st = f₂ date st) (sts : List Station) :
    retrieve_data_from_wyoming date f₁ sts = retrieve_data_from_wyoming date f₂ sts := by
  induction sts with
  | nil => rfl
  | cons st rest ih => simp [retrieve_data_from_wyoming, ih, h st]

/-- C9: `main` hands the fixed constant `datetime(2023, 10, 16, 00)` to
the data-retrieval step: its behaviour is a function of that constant
alone — it is unchanged under any change of the current clock time, and
unchanged when the fetch function is altered at every date other than the
constant; the synoptic times computed from the clock are never used. -/
theorem C9_fixed_retrieval_date :
    ∀ (onFlag dmap : Bool) (c₁ c₂ : DateTime)
      (fetch fetch' : DateTime → Station → FetchResult StationData) (mp : MetPy),
      main_run onFlag dmap c₁ fetch mp = main_body onFlag dmap (datetime 2023 10 16 0) fetch mp
      ∧ main_run onFlag dmap c₁ fetch mp = main_run onFlag dmap c₂ fetch mp
      ∧ ((∀ st, fetch (datetime 2023 10 16 0) st = fetch' (datetime 2023 10 16 0) st) →
          main_run onFlag dmap c₁ fetch mp = main_run onFlag dmap c₁ fetch' mp) := by
  intro onFlag dmap c₁ c₂ fetch fetch' mp
  refine ⟨rfl, rfl, fun h => ?_⟩
  show main_body _ _ _ _ _ = main_body _ _ _ _ _
  unfold main_body
  rw [retrieve_congr (datetime 2023 10 16 0) fetch fetch' h stations]

/-- A fetch function used in concrete runs below; it answers only for
station WITT and only on the hard-coded date. -/
def demoFetch : DateTime → Station → FetchResult StationData :=
  fun d st =>
    if d = datetime 2023 10 16 0 ∧ st = "WITT" then
      .ok ⟨⟨[1000, 850, 700, 500], [28, 15, 5, -20], [24, 10, -5, -30]⟩, 0,
        some (-6), some 107⟩
    else .valueError

/-- A second fetch function, agreeing with `demoFetch` on the hard-coded
date but different elsewhere. -/
def demoFetch' : DateTime → Station → FetchResult StationData :=
  fun d st => if d = datetime 2023 10 16 0 then demoFetch d st else .httpError

/-- Witness for C9 at a concrete input: two different clock readings give
the same run, and replacing the fetch function by one that agrees only on
the fixed date also gives the same run. -/
theorem C9_witness :
    main_run true false (datetime 2025 3 1 5) demoFetch mpOk =
      main_run true false (datetime 2025 11 30 23) demoFetch mpOk
    ∧ main_run true false (datetime 2025 3 1 5) demoFetch mpOk =
      main_run true false (datetime 2025 3 1 5) demoFetch' mpOk := by
  constructor
  · exact (C9_fixed_retrieval_date true false (datetime 2025 3 1 5) (datetime 2025 11 30 23)
      demoFetch demoFetch mpOk).2.1
  · exact (C9_fixed_retrieval_date true false (datetime 2025 3 1 5) (datetime 2025 3 1 5)
      demoFetch demoFetch' mpOk).2.2 (fun st => by simp [demoFetch', demoFetch])

/-- C8: in a session where the "Start Data Processing" checkbox is off and
the map checkbox is on, the map step does not receive the ResultSet as an
argument — it reads the unbound local `df`, and the run aborts with a
NameError instead of displaying a map; even with processing on, the map
branch aborts at the undefined name `folium_static`. -/
theorem C8_map_step_unbound_df :
    main_run false true (datetime 2025 1 1 0) demoFetch mpOk =
      Except.error (PyError.nameError "df") := rfl

/-- If some station in the loop input raises during its diagnostic
computation, the whole fill loop raises: nothing inside it is caught. -/
theorem fill_rows_error_of_mem (mp : MetPy) :
    ∀ (data : List (Station × StationData)) (acc : List DfRow) (k : Station)
      (sd : StationData) (e : PyError),
      (k, sd) ∈ data → computeRow mp sd = .error e →
      ∃ e', fill_rows mp data acc = .error e' := by
  intro data
  induction data with
  | nil => intro acc k sd e h _; exact absurd h (List.not_mem_nil _)
  | cons hd rest ih =>
    intro acc k sd e hmem herr
    obtain ⟨k', sd'⟩ := hd
    cases hcr : computeRow mp sd' with
    | error e'' => exact ⟨e'', by simp [fill_rows, hcr]⟩
    | ok row =>
      rcases List.mem_cons.mp hmem with heq | hrest
      · injection heq with h1 h2
        subst h2
        rw [herr] at hcr
        exact absurd hcr (by simp)
      · obtain ⟨e', he'⟩ :=
          ih (acc.map (fun x => if x.1.1 = k' then (x.1, some row) else x)) k sd e hrest herr
        exact ⟨e', by simp [fill_rows, hcr, he']⟩

/-- Every row the fill loop returns either is an untouched row of the
initial frame or belongs to a station that appears in the loop input. -/
theorem fill_rows_mem (mp : MetPy) :
    ∀ (data : List (Station × StationData)) (acc res : List DfRow),
      fill_rows mp data acc = .ok res → ∀ x ∈ res,
      (∃ y ∈ acc, y.1 = x.1 ∧ y.2 = x.2) ∨ x.1.1 ∈ data.map Prod.fst := by
  intro data
  induction data with
  | nil =>
    intro acc res h x hx
    simp only [fill_rows, Except.ok.injEq] at h
    subst h
    exact Or.inl ⟨x, hx, rfl, rfl⟩
  | cons hd rest ih =>
    intro acc res h x hx
    obtain ⟨k', sd'⟩ := hd
    cases hcr : computeRow mp sd' with
    | error e => simp [fill_rows, hcr] at h
    | ok row =>
      simp only [fill_rows, hcr] at h
      rcases ih _ res h x hx with ⟨y, hy, h1, h2⟩ | hk
      · obtain ⟨z, hz, rfl⟩ := List.mem_map.mp hy
        by_cases hzk : z.1.1 = k'
        · refine Or.inr ?_
          have hx1 : x.1 = z.1 := by simpa [hzk] using h1.symm
          simp [List.map_cons, hx1, hzk]
        · exact Or.inl ⟨z, hz, by simpa [hzk] using h1, by simpa [hzk] using h2⟩
      · exact Or.inr (List.mem_cons_of_mem _ hk)

/-- A successful `calculate_stability` run decomposes into a successful
fill loop followed by categorisation and the geolocation filter. -/
theorem calculate_stability_ok (mp : MetPy) (data : List (Station × StationData))
    (locs : List (Station × String)) (out : List OutRow)
    (h : calculate_stability mp data locs = .ok out) :
    ∃ rows, fill_rows mp data (locs.map (fun p => (p, none))) = .ok rows ∧
      out = (rows.map (fun e =>
        let r := e.2.getD nanRow
        (e.1, r, index_criteria r.cape r.kIndex r.liftedIndex r.showalterIndex))).filter
          (fun e => e.2.1.lintang.isSome && e.2.1.bujur.isSome) := by
  unfold calculate_stability at h
  by_cases hni : data.isEmpty
  · simp [hni] at h
  · simp only [hni, Bool.false_eq_true, if_false] at h
    cases hfr : fill_rows mp data (locs.map (fun p => (p, none))) with
    | error e => rw [hfr] at h; exact absurd h (by simp)
    | ok rows =>
      rw [hfr] at h
      simp only [Except.ok.injEq] at h
      exact ⟨rows, rfl, h.symm⟩

/-- C7: every entry of the final result table has non-NaN latitude and
longitude, and a station with no retrieved profile (absent from
`data_per_station`) never appears in it — it is omitted, not defaulted to
"Stabil". -/
theorem C7_geolocated_results (mp : MetPy) (data : List (Station × StationData))
    (locs : List (Station × String)) (out : List OutRow)
    (h : calculate_stability mp data locs = Except.ok out) :
    (∀ x ∈ out, x.2.1.lintang.isSome ∧ x.2.1.bujur.isSome)
    ∧ ∀ st name, st ∉ data.map Prod.fst → (st, name) ∉ out.map Prod.fst := by
  obtain ⟨rows, hfr, hout⟩ := calculate_stability_ok mp data locs out h
  constructor
  · intro x hx
    rw [hout] at hx
    have hp := (List.mem_filter.mp hx).2
    rw [Bool.and_eq_true] at hp
    exact ⟨hp.1, hp.2⟩
  · intro st name hst hmem
    rw [hout] at hmem
    obtain ⟨x, hx, hx1⟩ := List.mem_map.mp hmem
    have hxf := List.mem_filter.mp hx
    obtain ⟨y, hy, hy1⟩ := List.mem_map.mp hxf.1
    have hxy : x.1 = y.1 := by rw [← hy1]
    rcases fill_rows_mem mp data _ rows hfr y hy with ⟨z, hz, hz1, hz2⟩ | hk
    · obtain ⟨p, hp, rfl⟩ := List.mem_map.mp hz
      have hy2 : y.2 = none := hz2.symm
      have hlin : x.2.1.lintang = none := by
        rw [← hy1]
        simp [hy2, nanRow]
      have := hxf.2
      rw [Bool.and_eq_true] at this
      rw [hlin] at this
      exact absurd this.1 (by simp)
    · have h1 : y.1.1 = st := by rw [← hxy, hx1]
      rw [h1] at hk
      exact hst hk

/-- A normal station dataframe used in concrete runs: the spec's worked
4-level profile, with known geolocation. -/
def goodStation : StationData :=
  ⟨⟨[1000, 850, 700, 500], [28, 15, 5, -20], [24, 10, -5, -30]⟩, 0, some (-6), some 107⟩

/-- A station dataframe whose sounding has no levels at all (fewer than 2
levels, hence malformed in the spec's sense). -/
def emptyStation : StationData := ⟨⟨[], [], []⟩, 0, some 4, some 96⟩

/-- A two-station slice of the location table for concrete runs. -/
def demoLocs7 : List (Station × String) := [("WITT", "Aceh"), ("WION", "Ranai")]

/-- The row the stub library produces for `goodStation`. -/
def goodRow : Row :=
  ⟨some 0, some (-6), some 107, some 3000, some 35, some (-6), some (-2)⟩

/-- Result table of the concrete single-station run below. -/
def demoOut7 : List OutRow := [(("WITT", "Aceh"), goodRow, "Labil Kuat")]

theorem vRound0_3000 : vRound0 (some 3000) = some 3000 := by
  norm_num [vRound0, roundHalfEven]

theorem vRound0_35 : vRound0 (some 35) = some 35 := by
  norm_num [vRound0, roundHalfEven]

theorem vRound1_neg6 : vRound1 (some (-6)) = some (-6) := by
  norm_num [vRound1, roundHalfEven]
  norm_num [Int.fract]

theorem vRound1_neg2 : vRound1 (some (-2)) = some (-2) := by
  norm_num [vRound1, roundHalfEven]
  norm_num [Int.fract]

/-- The per-station body on `goodStation` with the stub library. -/
theorem computeRow_good : computeRow mpOk goodStation = Except.ok goodRow := by
  simp [computeRow, mpOk, goodStation, pyIndex0, goodRow,
    vRound0_3000, vRound0_35, vRound1_neg6, vRound1_neg2]

/-- Concrete successful run: WITT is processed and classified, WION —
whose profile was never retrieved — is dropped by the geolocation filter
instead of appearing as "Stabil". -/
theorem calc_demo7 :
    calculate_stability mpOk [("WITT", goodStation)] demoLocs7 = Except.ok demoOut7 := by
  norm_num [calculate_stability, fill_rows, computeRow_good, demoLocs7, demoOut7,
    goodRow, nanRow, index_criteria, vGt, vLt, String.reduceEq]
  simp

/-- Witness for C7 at a concrete input: every entry of the produced table
is geolocated, and the unretrieved station WION is absent from it. -/
theorem C7_witness :
    (∀ x ∈ demoOut7, x.2.1.lintang.isSome ∧ x.2.1.bujur.isSome)
    ∧ ("WION", "Ranai") ∉ demoOut7.map Prod.fst :=
  ⟨(C7_geolocated_results mpOk [("WITT", goodStation)] demoLocs7 demoOut7 calc_demo7).1,
   (C7_geolocated_results mpOk [("WITT", goodStation)] demoLocs7 demoOut7 calc_demo7).2
     "WION" "Ranai" (by simp)⟩

/-- C2 is false on the code at this input: station WIII's diagnostic
computation fails (empty profile ⇒ IndexError) and the whole
`calculate_stability` call errors out, so station WITT — which succeeds
when processed alone — gets no result either; the failure was neither
caught nor tagged. -/
theorem C2_counterexample :
    calculate_stability mpOk [("WIII", emptyStation), ("WITT", goodStation)] demoLocs7 =
      Except.error PyError.indexError
    ∧ calculate_stability mpOk [("WITT", goodStation)] demoLocs7 = Except.ok demoOut7 := by
  refine ⟨?_, calc_demo7⟩
  norm_num [calculate_stability, fill_rows, computeRow, pyIndex0, emptyStation]

/-- C2 (amended): retrieval failures are station-local — a failed fetch
is caught, the station is skipped, and every remaining station is still
fetched and collected — but diagnostic-computation failures are not:
nothing is caught inside `calculate_stability`'s loop, so one failing
station aborts the whole computation. -/
theorem C2_amended_locality :
    (∀ (α : Type) (date : DateTime) (fetch : DateTime → Station → FetchResult α)
      (sts : List Station),
      (retrieve_data_from_wyoming date fetch sts).calls = sts
      ∧ (retrieve_data_from_wyoming date fetch sts).data = sts.filterMap (fun st =>
          match fetch date st with
          | .ok d => some (st, d)
          | _ => none))
    ∧ ∀ (mp : MetPy) (data : List (Station × StationData)) (locs : List (Station × String))
        (k : Station) (sd : StationData) (e : PyError),
        (k, sd) ∈ data → computeRow mp sd = .error e →
        ∃ e', calculate_stability mp data locs = Except.error e' := by
  constructor
  · intro α date fetch sts
    exact ⟨(retrieve_spec date fetch sts).1, (retrieve_spec date fetch sts).2.1⟩
  · intro mp data locs k sd e hmem herr
    have hne : data.isEmpty = false := by
      cases data with
      | nil => exact absurd hmem (List.not_mem_nil _)
      | cons a l => rfl
    obtain ⟨e', he'⟩ :=
      fill_rows_error_of_mem mp data (locs.map (fun p => (p, none))) k sd e hmem herr
    exact ⟨e', by simp [calculate_stability, hne, he']⟩

/-- Witness for the amended C2 at a concrete input: one station whose
diagnostic computation raises makes the whole call raise. -/
theorem C2_amended_witness :
    ∃ e', calculate_stability mpOk [("WIII", emptyStation)] demoLocs7 = Except.error e' :=
  C2_amended_locality.2 mpOk [("WIII", emptyStation)] demoLocs7 "WIII" emptyStation
    PyError.indexError (by simp) (by simp [computeRow, pyIndex0, emptyStation])

/-- Location slice for the C4 runs. -/
def demoLocs4 : List (Station × String) := [("WIMG", "Padang"), ("WIBB", "Pekanbaru")]

/-- C4 is false on the code at this input: a sounding with 0 levels is not
rejected with a MalformedProfile error — the loop raises a plain
IndexError — and not only that station is excluded: the whole call
errors, so WIBB (fine on its own) is excluded as well. -/
theorem C4_counterexample :
    calculate_stability mpOk [("WIMG", emptyStation), ("WIBB", goodStation)] demoLocs4 =
      Except.error PyError.indexError
    ∧ calculate_stability mpOk [("WIBB", goodStation)] demoLocs4 =
        Except.ok [(("WIBB", "Pekanbaru"), goodRow, "Labil Kuat")] := by
  constructor
  · norm_num [calculate_stability, fill_rows, computeRow, pyIndex0, emptyStation]
  · norm_num [calculate_stability, fill_rows, computeRow_good, demoLocs4, goodRow,
      nanRow, index_criteria, vGt, vLt, String.reduceEq]
    simp

/-- C4 (amended): a sounding with no levels makes the per-station body
raise a plain IndexError at the surface-temperature read (before the
parcel-profile call); the source has no MalformedProfile check, nothing is
caught, and the error aborts `calculate_stability` for every station, not
only the malformed one. -/
theorem C4_amended_behavior :
    (∀ (mp : MetPy) (sd : StationData), sd.sounding.temperature = [] →
      computeRow mp sd = Except.error PyError.indexError)
    ∧ ∀ (mp : MetPy) (data : List (Station × StationData)) (locs : List (Station × String))
        (k : Station) (sd : StationData), (k, sd) ∈ data → sd.sounding.temperature = [] →
        ∃ e', calculate_stability mp data locs = Except.error e' := by
  have hrow : ∀ (mp : MetPy) (sd : StationData), sd.sounding.temperature = [] →
      computeRow mp sd = Except.error PyError.indexError := by
    intro mp sd h
    simp [computeRow, pyIndex0, h]
  refine ⟨hrow, ?_⟩
  intro mp data locs k sd hmem h
  have hne : data.isEmpty = false := by
    cases data with
    | nil => exact absurd hmem (List.not_mem_nil _)
    | cons a l => rfl
  obtain ⟨e', he'⟩ := fill_rows_error_of_mem mp data (locs.map (fun p => (p, none))) k sd
    PyError.indexError hmem (hrow mp sd h)
  exact ⟨e', by simp [calculate_stability, hne, he']⟩

/-- Witness for the amended C4 at a concrete input. -/
theorem C4_amended_witness :
    computeRow mpOk emptyStation = Except.error PyError.indexError
    ∧ ∃ e', calculate_stability mpOk [("WIMG", emptyStation)] demoLocs4 = Except.error e' :=
  ⟨C4_amended_behavior.1 mpOk emptyStation rfl,
   C4_amended_behavior.2 mpOk [("WIMG", emptyStation)] demoLocs4 "WIMG" emptyStation
     (by simp) rfl⟩

/-- The positive-part trapezoid integral is non-negative on any
height-sorted sample list. -/
theorem trapzPos_nonneg :
    ∀ l : List (ℚ × ℚ), l.Chain' (fun a b => a.1 ≤ b.1) → 0 ≤ trapzPos l
  | [], _ => le_refl 0
  | [a], _ => le_refl 0
  | (a1, a2) :: (b1, b2) :: rest, h => by
    obtain ⟨hab, ht⟩ := List.chain'_cons.mp h
    have ih := trapzPos_nonneg ((b1, b2) :: rest) ht
    have h1 : (0 : ℚ) ≤ (max a2 0 + max b2 0) / 2 * (b1 - a1) := by
      apply mul_nonneg
      · exact div_nonneg (add_nonneg (le_max_right _ _) (le_max_right _ _)) (by norm_num)
      · exact sub_nonneg.mpr hab
    rw [trapzPos]
    exact add_nonneg h1 ih

/-- The negative-part trapezoid integral is non-positive on any
height-sorted sample list. -/
theorem trapzNeg_nonpos :
    ∀ l : List (ℚ × ℚ), l.Chain' (fun a b => a.1 ≤ b.1) → trapzNeg l ≤ 0
  | [], _ => le_refl 0
  | [a], _ => le_refl 0
  | (a1, a2) :: (b1, b2) :: rest, h => by
    obtain ⟨hab, ht⟩ := List.chain'_cons.mp h
    have ih := trapzNeg_nonpos ((b1, b2) :: rest) ht
    have h1 : (min a2 0 + min b2 0) / 2 * (b1 - a1) ≤ 0 := by
      apply mul_nonpos_of_nonpos_of_nonneg
      · exact div_nonpos_of_nonpos_of_nonneg
          (add_nonpos (min_le_right _ _) (min_le_right _ _)) (by norm_num)
      · exact sub_nonneg.mpr hab
    rw [trapzNeg]
    exact add_nonpos h1 ih

/-- C3: for every well-formed profile (heights non-decreasing along the
levels), the diagnostics contain a CAPE that is ≥ 0 and a CIN that is
≤ 0. -/
theorem C3_cape_nonneg_cin_nonpos (levels : List (ℚ × ℚ × ℚ))
    (h : List.Chain' (· ≤ ·) (levels.map (fun l => l.1))) :
    0 ≤ (cape_cin_spec levels).1 ∧ (cape_cin_spec levels).2 ≤ 0 := by
  have hchain : (levels.map (fun l => (l.1, buoyancy l.2.1 l.2.2))).Chain'
      (fun a b => a.1 ≤ b.1) := by
    rw [List.chain'_map]
    rw [List.chain'_map] at h
    exact h
  have hg : (0 : ℚ) ≤ gAccel := by norm_num [gAccel]
  constructor
  · simp only [cape_cin_spec]
    exact mul_nonneg hg (trapzPos_nonneg _ ((hchain.drop _).take _))
  · simp only [cape_cin_spec]
    calc gAccel * trapzNeg ((levels.map (fun l => (l.1, buoyancy l.2.1 l.2.2))).take _)
        ≤ gAccel * 0 :=
          mul_le_mul_of_nonneg_left (trapzNeg_nonpos _ (hchain.take _)) hg
      _ = 0 := mul_zero _

/-- A concrete well-formed three-level profile (heights 0, 1000, 2000 m)
with a buoyant middle layer. -/
def demoLevels3 : List (ℚ × ℚ × ℚ) := [(0, 302, 300), (1000, 300, 301), (2000, 290, 291)]

/-- Witness for C3 at a concrete profile. -/
theorem C3_witness :
    0 ≤ (cape_cin_spec demoLevels3).1 ∧ (cape_cin_spec demoLevels3).2 ≤ 0 :=
  C3_cape_nonneg_cin_nonpos demoLevels3 (by norm_num [demoLevels3])

/-- The spec's worked example profile (§8): (pressure, T, Td) levels. -/
def exampleLevels : List (ℚ × ℚ × ℚ) :=
  [(1000, 28, 24), (850, 15, 10), (700, 5, -5), (500, -20, -30)]

/-- C5: the K-Index of the worked profile is 35 and, combined with
cape = 3000 and liftedIndex = -6, the classifier answers "Labil Kuat"
(StronglyUnstable), whatever the showalter value. -/
theorem C5_k_index_example :
    k_index_spec exampleLevels = some 35
    ∧ ∀ s : Val, index_criteria (some 3000) (k_index_spec exampleLevels) (some (-6)) s =
        "Labil Kuat" := by
  have hk : k_index_spec exampleLevels = some 35 := by
    norm_num [k_index_spec, exampleLevels, interpAt]
  refine ⟨hk, fun s => ?_⟩
  rw [hk]
  norm_num [index_criteria, vGt, vLt]

/-- If every sample pressure lies strictly above the target level,
interpolation reports the level as missing. -/
theorem interpAt_none_of_above (p : ℚ) :
    ∀ pairs : List (ℚ × ℚ), (∀ q ∈ pairs.map Prod.fst, p < q) → interpAt p pairs = none
  | [], _ => rfl
  | [(p1, v1)], h => by
    have h1 : p < p1 := h p1 (by simp)
    simp [interpAt, h1.ne']
  | (p1, v1) :: (p2, v2) :: rest, h => by
    have h1 : p < p1 := h p1 (by simp)
    have h2 : p < p2 := h p2 (by simp)
    have ih := interpAt_none_of_above p ((p2, v2) :: rest) (fun q hq => h q (by
      simp only [List.map_cons, List.mem_cons] at hq ⊢
      tauto))
    simp [interpAt, h1.ne', not_lt.mpr h2.le, ih]

/-- If every sample pressure lies strictly below the target level,
interpolation reports the level as missing. -/
theorem interpAt_none_of_below (p : ℚ) :
    ∀ pairs : List (ℚ × ℚ), (∀ q ∈ pairs.map Prod.fst, q < p) → interpAt p pairs = none
  | [], _ => rfl
  | [(p1, v1)], h => by
    have h1 : p1 < p := h p1 (by simp)
    simp [interpAt, h1.ne]
  | (p1, v1) :: (p2, v2) :: rest, h => by
    have h1 : p1 < p := h p1 (by simp)
    have ih := interpAt_none_of_below p ((p2, v2) :: rest) (fun q hq => h q (by
      simp only [List.map_cons, List.mem_cons] at hq ⊢
      tauto))
    simp [interpAt, h1.ne, not_lt.mpr h1.le, ih]

/-- C6: when the sounding's pressure range does not span the 500 hPa
level, the Lifted and Showalter indices are missing (`none`, i.e. NaN —
not zero), the tiers that need them cannot fire, and the classifier never
answers "Labil Kuat" or "Labil Sedang", whatever CAPE and K-Index are. -/
theorem C6_missing_level (levels : List (ℚ × ℚ × ℚ)) (parcel parcel850 : List ℚ)
    (h : (∀ q ∈ levels.map (fun l => l.1), 500 < q)
      ∨ (∀ q ∈ levels.map (fun l => l.1), q < 500)) :
    lifted_index_spec levels parcel = none
    ∧ showalter_index_spec levels parcel850 = none
    ∧ ∀ cape kindex : Val,
        index_criteria cape kindex (lifted_index_spec levels parcel)
          (showalter_index_spec levels parcel850) ≠ "Labil Kuat"
        ∧ index_criteria cape kindex (lifted_index_spec levels parcel)
            (showalter_index_spec levels parcel850) ≠ "Labil Sedang" := by
  have henv : interpAt 500 (levels.map (fun l => (l.1, l.2.1))) = none := by
    rcases h with h | h
    · apply interpAt_none_of_above
      intro q hq
      apply h
      simpa [List.map_map, Function.comp] using hq
    · apply interpAt_none_of_below
      intro q hq
      apply h
      simpa [List.map_map, Function.comp] using hq
  have hlift : lifted_index_spec levels parcel = none := by
    simp [lifted_index_spec, henv]
  have hshow : showalter_index_spec levels parcel850 = none := by
    simp [showalter_index_spec, henv]
  refine ⟨hlift, hshow, fun cape kindex => ?_⟩
  rw [hlift, hshow]
  constructor <;> simp [index_criteria, vLt]

/-- The worked profile truncated below 500 hPa: every pressure is above
500, so the 500 hPa level is not spanned. -/
def truncLevels : List (ℚ × ℚ × ℚ) := [(1000, 28, 24), (850, 15, 10), (700, 5, -5)]

/-- Witness for C6 at a concrete truncated profile: both indices come out
missing and even cape = 5000, kIndex = 40 cannot reach "Labil Kuat". -/
theorem C6_witness :
    lifted_index_spec truncLevels [28, 20, 10] = none
    ∧ showalter_index_spec truncLevels [15, 8] = none
    ∧ index_criteria (some 5000) (some 40) (lifted_index_spec truncLevels [28, 20, 10])
        (showalter_index_spec truncLevels [15, 8]) ≠ "Labil Kuat" := by
  have h := C6_missing_level truncLevels [28, 20, 10] [15, 8]
    (Or.inl (by norm_num [truncLevels]))
  exact ⟨h.1, h.2.1, (h.2.2 (some 5000) (some 40)).1⟩

end ASDAS
